import Mathlib

/-!
Verification of the HealthBot conversation state machine
(`src/healthbot/nodes.py`, `src/healthbot/graph.py`, `src/healthbot/state.py`)
against its natural-language specification.

Python strings are modelled as `List Char`; Python `None`-able fields as
`Option`; a node's returned partial-update dictionary as a record of
`Option` fields (`none` = key absent); a raised, uncaught exception as
`Option.none` at the function's result type.  External collaborators
(the LLM, the Tavily search tool, `json.loads`) are modelled as explicit
inputs or as executable model functions, and "the step called the
service" is recorded by an explicit flag.
-/

namespace HealthBot

/-- Python `str` modelled as a list of characters. -/
abbrev PyStr := List Char

/-- Python `str.upper` (ASCII behaviour, which is all the program relies on). -/
def pyUpper (s : PyStr) : PyStr := s.map Char.toUpper

/-- Python `str.lower` (ASCII behaviour). -/
def pyLower (s : PyStr) : PyStr := s.map Char.toLower

/-- Python `str.strip()`: drop whitespace at both ends. -/
def pyStrip (s : PyStr) : PyStr :=
  ((s.dropWhile Char.isWhitespace).reverse.dropWhile Char.isWhitespace).reverse

/-- Predicate `startsWith p s`: `p` is a leading segment of `s`. -/
def startsWith : PyStr → PyStr → Bool
  | [], _ => true
  | _ :: _, [] => false
  | a :: ps, b :: ss => a == b && startsWith ps ss

/-- The text after the first occurrence of `sep` in `s`
(`none` when `sep` does not occur).  Mirrors Python's
`s.split(sep)[1:]` boundary at the first hit. -/
def afterFirst (sep : PyStr) : PyStr → Option PyStr
  | [] => none
  | c :: rest =>
    if startsWith sep (c :: rest) then some ((c :: rest).drop sep.length)
    else afterFirst sep rest

/-- The text before the first occurrence of `sep` in `s`
(the whole of `s` when `sep` does not occur): Python `s.split(sep)[0]`. -/
def beforeFirst (sep : PyStr) : PyStr → PyStr
  | [] => []
  | c :: rest =>
    if startsWith sep (c :: rest) then [] else c :: beforeFirst sep rest

/-- Python's `sep in s` substring test (for non-empty `sep`). -/
def pyContains (sep s : PyStr) : Bool := (afterFirst sep s).isSome

/-- Body of `_normalize_quiz_answer` (src/healthbot/nodes.py, lines 413-449)
after the initial `raw_answer.upper().strip()` normalisation. -/
def normalizeCore (answer : PyStr) : PyStr :=
  if answer = "A".toList ∨ answer = "1".toList then "A".toList
  else if answer = "B".toList ∨ answer = "2".toList then "B".toList
  else if answer = "C".toList ∨ answer = "3".toList then "C".toList
  else if answer = "D".toList ∨ answer = "4".toList then "D".toList
  else if pyContains "OPTION A".toList answer ∨ pyContains "ALTERNATIVE A".toList answer then
    "A".toList
  else if pyContains "OPTION B".toList answer ∨ pyContains "ALTERNATIVE B".toList answer then
    "B".toList
  else if pyContains "OPTION C".toList answer ∨ pyContains "ALTERNATIVE C".toList answer then
    "C".toList
  else if pyContains "OPTION D".toList answer ∨ pyContains "ALTERNATIVE D".toList answer then
    "D".toList
  else
    match answer with
    | c :: _ => if c = 'A' ∨ c = 'B' ∨ c = 'C' ∨ c = 'D' then [c] else []
    | [] => []

/-- Function `_normalize_quiz_answer` (src/healthbot/nodes.py, lines 413-449):
uppercase, strip, then the case analysis of `normalizeCore`. -/
def normalize_quiz_answer (raw_answer : PyStr) : PyStr :=
  normalizeCore (pyStrip (pyUpper raw_answer))

/-- The answer-normalization algorithm as the specification words it:
map exact `"1".."4"` to `"A".."D"`; map exact letters to themselves;
recognise "option X" / "alternative X" (after uppercasing, checked for
X = A, B, C, D in order); otherwise use the first character when it is
one of A-D; otherwise the empty string. -/
def claimNormalizeCore (a : PyStr) : PyStr :=
  if a = "1".toList then "A".toList
  else if a = "2".toList then "B".toList
  else if a = "3".toList then "C".toList
  else if a = "4".toList then "D".toList
  else if a = "A".toList then "A".toList
  else if a = "B".toList then "B".toList
  else if a = "C".toList then "C".toList
  else if a = "D".toList then "D".toList
  else if pyContains "OPTION A".toList a ∨ pyContains "ALTERNATIVE A".toList a then
    "A".toList
  else if pyContains "OPTION B".toList a ∨ pyContains "ALTERNATIVE B".toList a then
    "B".toList
  else if pyContains "OPTION C".toList a ∨ pyContains "ALTERNATIVE C".toList a then
    "C".toList
  else if pyContains "OPTION D".toList a ∨ pyContains "ALTERNATIVE D".toList a then
    "D".toList
  else
    match a with
    | c :: _ => if c = 'A' ∨ c = 'B' ∨ c = 'C' ∨ c = 'D' then [c] else []
    | [] => []

/-- The specification's description of normalisation, applied to a raw input. -/
def claimNormalizeQuizAnswer (raw : PyStr) : PyStr :=
  claimNormalizeCore (pyStrip (pyUpper raw))

/-- A LangChain conversation message, by role, with its text content
(`extract_message_content` on string-typed content). -/
inductive Message
  | human (content : PyStr)
  | ai (content : PyStr)
  | system (content : PyStr)
deriving DecidableEq

/-- Python `isinstance(last_message, HumanMessage)`. -/
def Message.isHuman : Message → Bool
  | .human _ => true
  | _ => false

/-- A Python value that can sit in the untyped `continue_learning` channel
(`state.get("continue_learning", False)` is inspected by truthiness).
`pnone` covers both an absent key and an explicit `None`. -/
inductive PyVal
  | pnone
  | pbool (b : Bool)
  | pint (n : Int)
  | pstr (s : PyStr)
deriving DecidableEq

/-- Python truthiness of a `PyVal` (with `pnone` also covering the
`.get` default `False` for an absent key). -/
def PyVal.truthy : PyVal → Bool
  | .pnone => false
  | .pbool b => b
  | .pint n => n != 0
  | .pstr s => !s.isEmpty

/-- A JSON value as produced by `json.loads` (numbers restricted to
integers, which is all the grade schema uses). -/
inductive Json
  | null
  | bool (b : Bool)
  | num (n : Int)
  | str (s : PyStr)
  | arr (elems : List Json)
  | obj (fields : List (PyStr × Json))

/-- The graph state (`HealthBotState` in src/healthbot/state.py plus the
further keys the nodes and `main.py` store in the same dictionary:
quiz fields, grade, continuation flag, search diagnostics, `run_id`). -/
structure BotState where
  messages : List Message
  topic : Option PyStr
  results : Option PyStr
  summary : Option PyStr
  quiz_question : Option PyStr
  quiz_answer : Option PyStr
  grade : Option Json
  continue_learning : PyVal
  has_results : Option Bool
  sources_count : Option Nat
  run_id : Option PyStr

/-- A node's returned partial-update dictionary.  An outer `none` means
the key is absent from the returned dictionary; `messages` holds the
list of messages to append (the `add_messages` channel). -/
structure StateUpdate where
  messages : List Message := []
  topic : Option (Option PyStr) := none
  results : Option (Option PyStr) := none
  summary : Option (Option PyStr) := none
  quiz_question : Option (Option PyStr) := none
  quiz_answer : Option (Option PyStr) := none
  grade : Option (Option Json) := none
  continue_learning : Option PyVal := none
  has_results : Option Bool := none
  sources_count : Option Nat := none
  run_id : Option (Option PyStr) := none

/-- LangGraph's merge of a node's partial update into the state:
`messages` is append (`add_messages`), every other present key overwrites. -/
def applyUpdate (s : BotState) (u : StateUpdate) : BotState where
  messages := s.messages ++ u.messages
  topic := u.topic.getD s.topic
  results := u.results.getD s.results
  summary := u.summary.getD s.summary
  quiz_question := u.quiz_question.getD s.quiz_question
  quiz_answer := u.quiz_answer.getD s.quiz_answer
  grade := u.grade.getD s.grade
  continue_learning := u.continue_learning.getD s.continue_learning
  has_results := (u.has_results.map some).getD s.has_results
  sources_count := (u.sources_count.map some).getD s.sources_count
  run_id := u.run_id.getD s.run_id

/-- Python falsiness of an optional string field (`not topic` is true for
both `None` and `""`). -/
def strOptFalsy : Option PyStr → Bool
  | none => true
  | some s => s.isEmpty

/-- Node `receive_topic` (src/healthbot/nodes.py, lines 57-90).  `none` models
the `IndexError` raised when `state["messages"]` is empty. -/
def receive_topic (s : BotState) : Option StateUpdate :=
  (s.messages.getLast?).map fun m =>
    match m with
    | .human c =>
      let topic := pyStrip c
      { topic := some (some topic)
        messages := [Message.ai ("Got it! I\x27ll search for reliable information about **".toList
          ++ topic ++ "**. Please wait a moment... 🔍".toList)] }
    | _ => { topic := some (some "general health".toList) }

/-- Node `receive_answer` (src/healthbot/nodes.py, lines 384-410).  `none`
models the `IndexError` raised when `state["messages"]` is empty. -/
def receive_answer (s : BotState) : Option StateUpdate :=
  (s.messages.getLast?).map fun m =>
    match m with
    | .human c => { quiz_answer := some (some (normalize_quiz_answer (pyStrip c))) }
    | _ => { quiz_answer := some (some []) }

/-- The affirmative set checked by `receive_continue`
(`["yes", "y", "sim", "s", "si", "yeah", "yep"]`). -/
def affirmatives : List PyStr :=
  ["yes".toList, "y".toList, "sim".toList, "s".toList, "si".toList,
   "yeah".toList, "yep".toList]

/-- Node `receive_continue` (src/healthbot/nodes.py, lines 645-692).  `none`
models the `IndexError` raised when `state["messages"]` is empty. -/
def receive_continue (s : BotState) : Option StateUpdate :=
  (s.messages.getLast?).map fun m =>
    match m with
    | .human c =>
      let response := pyLower (pyStrip c)
      if affirmatives.contains response then
        { continue_learning := some (.pbool true)
          topic := some none
          results := some none
          summary := some none
          quiz_question := some none
          quiz_answer := some none
          grade := some none }
      else
        { continue_learning := some (.pbool false) }
    | _ => { continue_learning := some (.pbool false) }

/-- Router `should_continue` (src/healthbot/nodes.py, lines 700-721): reads
`state.get("continue_learning", False)` and branches on Python truthiness. -/
def should_continue (s : BotState) : PyStr :=
  if s.continue_learning.truthy then "ask_topic".toList else "end".toList

/-- One Tavily search hit, as consumed by `search_tavily`
(`result.get('url', 'N/A')`, `result.get('content', 'N/A')`). -/
structure TavilyResult where
  url : Option PyStr
  content : Option PyStr

/-- A processing step's outcome: the partial update it returns, plus a
flag recording whether the external service (Tavily or the LLM) was
invoked on that run. -/
structure StepOutcome where
  update : StateUpdate
  calledService : Bool

/-- The per-source block built by the formatting loop of `search_tavily`. -/
def formatResult (i : Nat) (r : TavilyResult) : PyStr :=
  "\n--- Source ".toList ++ (toString i).toList ++ " ---\n".toList
    ++ "URL: ".toList ++ r.url.getD "N/A".toList ++ "\n".toList
    ++ "Content: ".toList ++ r.content.getD "N/A".toList ++ "\n".toList

/-- The `for i, result in enumerate(results, 1)` accumulation of `search_tavily`. -/
def formatResults (rs : List TavilyResult) : PyStr :=
  ((List.enumFrom 1 rs).map fun p => formatResult p.1 p.2).flatten

/-- Node `search_tavily` (src/healthbot/nodes.py, lines 98-147).  The Tavily
hits are an explicit input; `calledService` records whether
`tavily.invoke` was reached. -/
def search_tavily (s : BotState) (serviceResults : List TavilyResult) : StepOutcome :=
  if strOptFalsy s.topic then
    { update := { results := some (some "Error: No topic provided.".toList) }
      calledService := false }
  else if serviceResults.isEmpty then
    { update :=
        { results := some (some ("No reliable information found for this topic. "
            ++ "Please try a different or more specific health topic.").toList)
          has_results := some false }
      calledService := true }
  else
    { update :=
        { results := some (some (formatResults serviceResults))
          has_results := some true
          sources_count := some serviceResults.length }
      calledService := true }

/-- Node `summarize` (src/healthbot/nodes.py, lines 184-237).  The LLM's
summary text is an explicit input; `calledService` records whether
`llm.invoke` was reached. -/
def summarize (s : BotState) (llmSummary : PyStr) : StepOutcome :=
  if strOptFalsy s.topic || strOptFalsy s.results then
    { update := { summary := some (some "Error: Missing data for summarization.".toList) }
      calledService := false }
  else
    { update := { summary := some (some llmSummary) }
      calledService := true }

/-- The nodes added to the LangGraph workflow in
`create_healthbot_graph` (src/healthbot/graph.py, lines 91-106). -/
inductive GNode
  | ask_topic | receive_topic | search_tavily | summarize | present_summary
  | create_quiz | present_quiz | receive_answer | grade_answer | present_grade
  | ask_continue | receive_continue
deriving DecidableEq

/-- A transition target: another node, or the graph's END. -/
inductive GTarget
  | to (n : GNode)
  | terminal
deriving DecidableEq

/-- Entry point `workflow.set_entry_point("ask_topic")`. -/
def entryPoint : GNode := .ask_topic

/-- The conditional-edge mapping `{"ask_topic": "ask_topic", "end": END}`
applied to the router's returned string (`none` = key not in mapping). -/
def conditionalRoute (r : PyStr) : Option GTarget :=
  if r = "ask_topic".toList then some (.to .ask_topic)
  else if r = "end".toList then some .terminal
  else none

/-- The edges of `create_healthbot_graph` (src/healthbot/graph.py,
lines 113-140): eleven unconditional edges plus the conditional edge out
of `receive_continue` through `should_continue`. -/
def nextTarget (s : BotState) : GNode → Option GTarget
  | .ask_topic => some (.to .receive_topic)
  | .receive_topic => some (.to .search_tavily)
  | .search_tavily => some (.to .summarize)
  | .summarize => some (.to .present_summary)
  | .present_summary => some (.to .create_quiz)
  | .create_quiz => some (.to .present_quiz)
  | .present_quiz => some (.to .receive_answer)
  | .receive_answer => some (.to .grade_answer)
  | .grade_answer => some (.to .present_grade)
  | .present_grade => some (.to .ask_continue)
  | .ask_continue => some (.to .receive_continue)
  | .receive_continue => conditionalRoute (should_continue s)

/-- The `interrupt_before=[...]` list of `workflow.compile`
(src/healthbot/graph.py, lines 149-153). -/
def interruptBefore : List GNode := [.receive_topic, .receive_answer, .receive_continue]

/-- An otherwise-empty state used to build concrete instances. -/
def emptyState : BotState where
  messages := []
  topic := none
  results := none
  summary := none
  quiz_question := none
  quiz_answer := none
  grade := none
  continue_learning := .pnone
  has_results := none
  sources_count := none
  run_id := none

/-- A state whose continuation channel holds the non-boolean, truthy
Python value `1`. -/
def truthyIntState : BotState := { emptyState with continue_learning := .pint 1 }

/-- A state whose last message is the human turn " Sim ". -/
def simState : BotState := { emptyState with messages := [Message.human " Sim ".toList] }

/-- The update `receive_continue` returns on an affirmative response. -/
def affirmativeResetUpdate : StateUpdate where
  continue_learning := some (.pbool true)
  topic := some none
  results := some none
  summary := some none
  quiz_question := some none
  quiz_answer := some none
  grade := some none

/-- JSON whitespace skipping (space, tab, newline, carriage return),
as in Python's `json` module. -/
def skipWs (s : PyStr) : PyStr :=
  s.dropWhile fun c => c == ' ' || c == '\t' || c == '\n' || c == '\r'

/-- Scan a JSON string body after the opening quote: returns the content
and the remainder after the closing quote.  Escape sequences are outside
the model (treated as a parse failure). -/
def scanString : PyStr → Option (PyStr × PyStr)
  | [] => none
  | c :: rest =>
    if c = '"' then some ([], rest)
    else if c = '\\' then none
    else (scanString rest).map fun p => (c :: p.1, p.2)

/-- Consume leading decimal digits, accumulating their value. -/
def scanDigits (acc : Nat) : PyStr → Nat × PyStr
  | c :: rest => if c.isDigit then scanDigits (acc * 10 + (c.toNat - 48)) rest else (acc, c :: rest)
  | [] => (acc, [])

/-- Scan a non-empty run of digits as a natural number. -/
def scanNat : PyStr → Option (Nat × PyStr)
  | c :: rest => if c.isDigit then some (scanDigits (c.toNat - 48) rest) else none
  | [] => none

/-- Scan a JSON integer (optional leading minus). -/
def scanInt : PyStr → Option (Int × PyStr)
  | '-' :: rest => (scanNat rest).map fun p => (-(p.1 : Int), p.2)
  | s => (scanNat s).map fun p => ((p.1 : Int), p.2)

mutual

/-- Recursive-descent JSON value parser (a model of Python `json.loads`
restricted to null, booleans, integers, escape-free strings, arrays and
objects; floats are outside the model).  `fuel` bounds recursion depth
and is always sufficient for inputs whose nesting is at most their
length. -/
def parseVal : Nat → PyStr → Option (Json × PyStr)
  | 0, _ => none
  | fuel + 1, s =>
    match skipWs s with
    | '{' :: rest =>
      (match skipWs rest with
       | '}' :: rest2 => some (.obj [], rest2)
       | _ => parseObjRest fuel rest [])
    | '[' :: rest =>
      (match skipWs rest with
       | ']' :: rest2 => some (.arr [], rest2)
       | _ => parseArrRest fuel rest [])
    | '"' :: rest => (scanString rest).map fun p => (.str p.1, p.2)
    | 't' :: 'r' :: 'u' :: 'e' :: rest => some (.bool true, rest)
    | 'f' :: 'a' :: 'l' :: 's' :: 'e' :: rest => some (.bool false, rest)
    | 'n' :: 'u' :: 'l' :: 'l' :: rest => some (.null, rest)
    | s2 =>
      (scanInt s2).bind fun p =>
        match p.2 with
        | c :: _ => if c == '.' || c == 'e' || c == 'E' then none else some (.num p.1, p.2)
        | [] => some (.num p.1, [])

/-- Parse the key/value pairs of a JSON object after its opening brace. -/
def parseObjRest : Nat → PyStr → List (PyStr × Json) → Option (Json × PyStr)
  | 0, _, _ => none
  | fuel + 1, s, acc =>
    match skipWs s with
    | '"' :: rest =>
      (scanString rest).bind fun kp =>
        match skipWs kp.2 with
        | ':' :: rest2 =>
          (parseVal fuel rest2).bind fun vp =>
            match skipWs vp.2 with
            | ',' :: rest3 => parseObjRest fuel rest3 (acc ++ [(kp.1, vp.1)])
            | '}' :: rest3 => some (.obj (acc ++ [(kp.1, vp.1)]), rest3)
            | _ => none
        | _ => none
    | _ => none

/-- Parse the elements of a JSON array after its opening bracket. -/
def parseArrRest : Nat → PyStr → List Json → Option (Json × PyStr)
  | 0, _, _ => none
  | fuel + 1, s, acc =>
    (parseVal fuel s).bind fun vp =>
      match skipWs vp.2 with
      | ',' :: rest => parseArrRest fuel rest (acc ++ [vp.1])
      | ']' :: rest => some (.arr (acc ++ [vp.1]), rest)
      | _ => none

end

/-- Model of Python `json.loads`: parse one value and require only
whitespace to follow. -/
def jsonLoads (s : PyStr) : Option Json :=
  match parseVal (s.length + 1) s with
  | some (j, rest) => if (skipWs rest).isEmpty then some j else none
  | none => none

/-- Python's `key in value` on a parsed JSON value: key membership for a
dict, substring for a string, element equality for a list. `none` models
the `TypeError` Python raises for a non-container (number, bool, null). -/
def pyInJson (key : PyStr) : Json → Option Bool
  | .obj fields => some (fields.any fun kv => kv.1 == key)
  | .str s => some (pyContains key s)
  | .arr xs =>
    some (xs.any fun e =>
      match e with
      | .str t => t == key
      | _ => false)
  | _ => none

/-- The check `all(k in grade_data for k in ["score", "feedback", "citations"])`
from `grade_answer`, with `none` propagating the `TypeError` of a
membership test on a non-container. -/
def gradeKeysPresent (j : Json) : Option Bool :=
  match pyInJson "score".toList j with
  | none => none
  | some false => some false
  | some true =>
    match pyInJson "feedback".toList j with
    | none => none
    | some false => some false
    | some true => pyInJson "citations".toList j

/-- The fenced-code-block stripping of `grade_answer`
(src/healthbot/nodes.py, lines 527-531):
`text.split("```json")[1].split("```")[0]` when "```json" occurs, else
`text.split("```")[1].split("```")[0]` when "```" occurs, else the text
unchanged. -/
def stripCodeFence (t : PyStr) : PyStr :=
  if pyContains "```json".toList t then
    beforeFirst "```".toList ((afterFirst "```json".toList t).getD [])
  else if pyContains "```".toList t then
    beforeFirst "```".toList ((afterFirst "```".toList t).getD [])
  else t

/-- The error grade returned when a precondition of `grade_answer` is
missing. -/
def errorGradeJson : Json :=
  .obj [("score".toList, .num 0),
        ("feedback".toList, .str "Error: Could not evaluate the answer.".toList),
        ("citations".toList, .arr [])]

/-- The fallback grade built in the `except` branch of `grade_answer`:
score 5, the given text as feedback, no citations. -/
def fallbackGradeJson (txt : PyStr) : Json :=
  .obj [("score".toList, .num 5),
        ("feedback".toList, .str txt),
        ("citations".toList, .arr [])]

/-- Node `grade_answer` (src/healthbot/nodes.py, lines 452-552).  The LLM's
grading response text is an explicit input.  `none` models the uncaught
`TypeError` raised when the parsed JSON value is a non-container and the
key-membership check `k in grade_data` is executed on it. -/
def grade_answer (s : BotState) (llmResponse : PyStr) : Option StateUpdate :=
  if strOptFalsy s.quiz_question || strOptFalsy s.quiz_answer || strOptFalsy s.summary then
    some { grade := some (some errorGradeJson) }
  else
    match jsonLoads (pyStrip (stripCodeFence llmResponse)) with
    | none => some { grade := some (some (fallbackGradeJson (stripCodeFence llmResponse))) }
    | some gradeData =>
      match gradeKeysPresent gradeData with
      | none => none
      | some true => some { grade := some (some gradeData) }
      | some false => some { grade := some (some (fallbackGradeJson (stripCodeFence llmResponse))) }

/-- Field lookup on a parsed JSON object, with Python-dict last-wins
semantics for duplicate keys (`none` for a non-object or absent key). -/
def jsonLookup (j : Json) (key : PyStr) : Option Json :=
  match j with
  | .obj fields => (fields.reverse.find? fun kv => kv.1 == key).map Prod.snd
  | _ => none

/-- A state in which all three preconditions of `grade_answer` hold. -/
def okQuizState : BotState :=
  { emptyState with
      quiz_question := some "Q".toList
      quiz_answer := some "B".toList
      summary := some "S".toList }

/-- A parsed grade whose score lies outside `[0, 10]`. -/
def outOfRangeGrade : Json :=
  .obj [("score".toList, .num 15), ("feedback".toList, .str "ok".toList),
        ("citations".toList, .arr [])]

/-- The LLM response used to exercise the fenced-garbage fallback path. -/
def fencedGarbageResponse : PyStr := "```json\nnot json!\n```".toList

theorem normalizeCore_eq_claim (a : PyStr) : normalizeCore a = claimNormalizeCore a := by
  by_cases h1 : a = "A".toList
  · subst h1; decide
  by_cases h2 : a = "1".toList
  · subst h2; decide
  by_cases h3 : a = "B".toList
  · subst h3; decide
  by_cases h4 : a = "2".toList
  · subst h4; decide
  by_cases h5 : a = "C".toList
  · subst h5; decide
  by_cases h6 : a = "3".toList
  · subst h6; decide
  by_cases h7 : a = "D".toList
  · subst h7; decide
  by_cases h8 : a = "4".toList
  · subst h8; decide
  unfold normalizeCore claimNormalizeCore
  rw [if_neg (not_or.mpr ⟨h1, h2⟩), if_neg (not_or.mpr ⟨h3, h4⟩),
    if_neg (not_or.mpr ⟨h5, h6⟩), if_neg (not_or.mpr ⟨h7, h8⟩),
    if_neg h2, if_neg h4, if_neg h6, if_neg h8,
    if_neg h1, if_neg h3, if_neg h5, if_neg h7]

theorem normalizeCore_range (a : PyStr) :
    normalizeCore a = "A".toList ∨ normalizeCore a = "B".toList ∨
    normalizeCore a = "C".toList ∨ normalizeCore a = "D".toList ∨
    normalizeCore a = [] := by
  unfold normalizeCore
  split_ifs <;> try simp
  rcases a with _ | ⟨c, rest⟩
  · simp
  · simp only []
    split_ifs with hc
    · rcases hc with hc | hc | hc | hc <;> subst hc <;> simp
    · simp

/-- C2: for every input string, the answer normalization used by
`receive_answer` agrees with the algorithm described in the spec
(uppercase and strip; exact `"1".."4"` to `"A".."D"`; exact letters to
themselves; "option X"/"alternative X" to X; else the first character
when it is one of A-D; else empty), and its result is always one of
`"A"`, `"B"`, `"C"`, `"D"`, `""`. -/
theorem quiz_answer_normalization_matches_spec (raw : PyStr) :
    normalize_quiz_answer raw = claimNormalizeQuizAnswer raw ∧
    (normalize_quiz_answer raw = "A".toList ∨ normalize_quiz_answer raw = "B".toList ∨
     normalize_quiz_answer raw = "C".toList ∨ normalize_quiz_answer raw = "D".toList ∨
     normalize_quiz_answer raw = []) :=
  ⟨normalizeCore_eq_claim _, normalizeCore_range _⟩

/-- C5: the flow controller's step relation is exactly the fixed linear
order ask_topic, receive_topic, search, summarize, present_summary,
create_quiz, present_quiz, receive_answer, grade_answer, present_grade,
ask_continue, receive_continue, with one conditional edge from
receive_continue (back to ask_topic when the router says to continue,
to the terminal state otherwise), and the controller suspends before
exactly receive_topic, receive_answer and receive_continue. -/
theorem graph_structure (s : BotState) :
    entryPoint = GNode.ask_topic ∧
    nextTarget s .ask_topic = some (.to .receive_topic) ∧
    nextTarget s .receive_topic = some (.to .search_tavily) ∧
    nextTarget s .search_tavily = some (.to .summarize) ∧
    nextTarget s .summarize = some (.to .present_summary) ∧
    nextTarget s .present_summary = some (.to .create_quiz) ∧
    nextTarget s .create_quiz = some (.to .present_quiz) ∧
    nextTarget s .present_quiz = some (.to .receive_answer) ∧
    nextTarget s .receive_answer = some (.to .grade_answer) ∧
    nextTarget s .grade_answer = some (.to .present_grade) ∧
    nextTarget s .present_grade = some (.to .ask_continue) ∧
    nextTarget s .ask_continue = some (.to .receive_continue) ∧
    nextTarget s .receive_continue =
      some (if s.continue_learning.truthy then GTarget.to .ask_topic else .terminal) ∧
    interruptBefore = [.receive_topic, .receive_answer, .receive_continue] := by
  refine ⟨rfl, rfl, rfl, rfl, rfl, rfl, rfl, rfl, rfl, rfl, rfl, rfl, ?_, rfl⟩
  cases h : s.continue_learning.truthy <;>
    simp only [nextTarget, should_continue, h, if_true, if_false] <;> decide

/-- C4 counterexample: it is not the case that `should_continue` yields
"ask_topic" only when `continue_learning` is exactly the boolean true:
with the non-boolean value `1` in the field it still yields "ask_topic". -/
theorem should_continue_exactly_true_refuted :
    ¬ (∀ s : BotState,
        should_continue s = "ask_topic".toList ↔ s.continue_learning = PyVal.pbool true) := by
  intro h
  exact absurd ((h truthyIntState).mp (by decide)) (by decide)

/-- C4 amended: `should_continue` returns "ask_topic" exactly when the
`continue_learning` field is truthy under Python truthiness (so the
boolean true, but also e.g. a non-zero number or non-empty string), and
"end" exactly when it is falsy (false, None/absent, zero, empty). -/
theorem should_continue_routes_on_truthiness (s : BotState) :
    (should_continue s = "ask_topic".toList ∨ should_continue s = "end".toList) ∧
    (s.continue_learning.truthy = true → should_continue s = "ask_topic".toList) ∧
    (s.continue_learning.truthy = false → should_continue s = "end".toList) ∧
    (s.continue_learning = PyVal.pbool true → should_continue s = "ask_topic".toList) ∧
    (s.continue_learning = PyVal.pbool false → should_continue s = "end".toList) ∧
    (s.continue_learning = PyVal.pnone → should_continue s = "end".toList) := by
  refine ⟨?_, ?_, ?_, ?_, ?_, ?_⟩
  · unfold should_continue
    cases h : s.continue_learning.truthy <;> simp [h]
  · intro hv; simp [should_continue, hv]
  · intro hv; simp [should_continue, hv]
  · intro hv; simp [should_continue, hv, PyVal.truthy]
  · intro hv; simp [should_continue, hv, PyVal.truthy]
  · intro hv; simp [should_continue, hv, PyVal.truthy]

theorem should_continue_routes_on_truthiness_witness :
    should_continue { emptyState with continue_learning := .pbool true } = "ask_topic".toList ∧
    should_continue { emptyState with continue_learning := .pbool false } = "end".toList :=
  ⟨(should_continue_routes_on_truthiness _).2.2.2.1 rfl,
   (should_continue_routes_on_truthiness _).2.2.2.2.1 rfl⟩

/-- C8: when `topic` is empty or null, `search_tavily` returns only the
error result text — `has_results` and `sources_count` are not reported
(so the result is falsy-equivalent to `has_results = false`), no message
is appended, and the external search service is not invoked; the step
returns normally rather than raising. -/
theorem search_tavily_empty_topic (s : BotState) (serviceResults : List TavilyResult)
    (h : s.topic = none ∨ s.topic = some []) :
    search_tavily s serviceResults =
      { update := { results := some (some "Error: No topic provided.".toList) }
        calledService := false } ∧
    (search_tavily s serviceResults).update.has_results ≠ some true ∧
    (search_tavily s serviceResults).update.sources_count = none ∧
    (search_tavily s serviceResults).calledService = false := by
  have hf : strOptFalsy s.topic = true := by
    rcases h with h | h <;> simp [h, strOptFalsy]
  unfold search_tavily
  rw [if_pos hf]
  exact ⟨rfl, by simp, rfl, rfl⟩

theorem search_tavily_empty_topic_witness :
    (emptyState.topic = none ∨ emptyState.topic = some []) ∧
    (search_tavily emptyState [⟨some "u".toList, some "c".toList⟩]).calledService = false :=
  ⟨Or.inl rfl,
   (search_tavily_empty_topic emptyState [⟨some "u".toList, some "c".toList⟩] (Or.inl rfl)).2.2.2⟩

/-- C9: when `topic` or `results` is empty or null, `summarize` returns
the placeholder summary "Error: Missing data for summarization." without
calling the LLM, and returns normally rather than raising. -/
theorem summarize_missing_data (s : BotState) (llmSummary : PyStr)
    (h : s.topic = none ∨ s.topic = some [] ∨ s.results = none ∨ s.results = some []) :
    summarize s llmSummary =
      { update := { summary := some (some "Error: Missing data for summarization.".toList) }
        calledService := false } := by
  have hf : (strOptFalsy s.topic || strOptFalsy s.results) = true := by
    rcases h with h | h | h | h <;> simp [h, strOptFalsy]
  unfold summarize
  rw [if_pos hf]

theorem summarize_missing_data_witness :
    summarize { emptyState with topic := some "diabetes".toList } "text".toList =
      { update := { summary := some (some "Error: Missing data for summarization.".toList) }
        calledService := false } :=
  summarize_missing_data _ _ (Or.inr (Or.inr (Or.inl rfl)))

/-- C6: for every human input, `receive_continue` sets
`continue_learning` to true exactly when the lowercased, trimmed input
is in the affirmative set {yes, y, sim, s, si, yeah, yep}, and to false
for every other input. -/
theorem receive_continue_normalization (s : BotState) (c : PyStr) (u : StateUpdate)
    (hlast : s.messages.getLast? = some (Message.human c))
    (hrun : receive_continue s = some u) :
    u.continue_learning = some (PyVal.pbool (affirmatives.contains (pyLower (pyStrip c)))) := by
  unfold receive_continue at hrun
  rw [hlast] at hrun
  simp only [Option.map_some', Option.some.injEq] at hrun
  subst hrun
  by_cases hm : affirmatives.contains (pyLower (pyStrip c)) = true
  · rw [if_pos hm, hm]
  · have hm2 : affirmatives.contains (pyLower (pyStrip c)) = false := by simpa using hm
    rw [if_neg hm, hm2]

theorem receive_continue_normalization_witness :
    affirmativeResetUpdate.continue_learning = some (PyVal.pbool true) :=
  (receive_continue_normalization simState " Sim ".toList affirmativeResetUpdate
    rfl rfl).trans (by decide)

/-- C3: after `receive_continue` answers affirmatively (the update sets
`continue_learning` to true), applying the update leaves `topic`,
`results`, `summary`, `quiz_question`, `quiz_answer` and `grade` all
null, while `messages` and `run_id` are exactly what they were before. -/
theorem receive_continue_affirmative_reset (s : BotState) (c : PyStr) (u : StateUpdate)
    (hlast : s.messages.getLast? = some (Message.human c))
    (hrun : receive_continue s = some u)
    (haff : u.continue_learning = some (PyVal.pbool true)) :
    (applyUpdate s u).topic = none ∧ (applyUpdate s u).results = none ∧
    (applyUpdate s u).summary = none ∧ (applyUpdate s u).quiz_question = none ∧
    (applyUpdate s u).quiz_answer = none ∧ (applyUpdate s u).grade = none ∧
    (applyUpdate s u).messages = s.messages ∧ (applyUpdate s u).run_id = s.run_id := by
  unfold receive_continue at hrun
  rw [hlast] at hrun
  simp only [Option.map_some', Option.some.injEq] at hrun
  subst hrun
  by_cases hm : affirmatives.contains (pyLower (pyStrip c)) = true
  · rw [if_pos hm] at haff ⊢
    simp [applyUpdate]
  · rw [if_neg hm] at haff
    simp at haff

theorem receive_continue_affirmative_reset_witness :
    (applyUpdate { emptyState with
        messages := [Message.human "yes".toList]
        topic := some "flu".toList
        run_id := some "run-1".toList }
      { continue_learning := some (.pbool true), topic := some none, results := some none,
        summary := some none, quiz_question := some none, quiz_answer := some none,
        grade := some none }).topic = none ∧
    (applyUpdate { emptyState with
        messages := [Message.human "yes".toList]
        topic := some "flu".toList
        run_id := some "run-1".toList }
      { continue_learning := some (.pbool true), topic := some none, results := some none,
        summary := some none, quiz_question := some none, quiz_answer := some none,
        grade := some none }).messages = [Message.human "yes".toList] := by
  have h := receive_continue_affirmative_reset
    { emptyState with
        messages := [Message.human "yes".toList]
        topic := some "flu".toList
        run_id := some "run-1".toList }
    "yes".toList
    { continue_learning := some (.pbool true), topic := some none, results := some none,
      summary := some none, quiz_question := some none, quiz_answer := some none,
      grade := some none }
    rfl rfl rfl
  exact ⟨h.1, h.2.2.2.2.2.2.1⟩

/-- C10: when the last message is present but is not a human turn, each
receive step recovers with its fallback update — `receive_topic` sets
`topic` to "general health", `receive_answer` sets `quiz_answer` to the
empty string, `receive_continue` sets `continue_learning` to false — and
none of them appends a message or touches any other field. -/
theorem receive_steps_nonhuman_fallback (s : BotState) (m : Message)
    (hlast : s.messages.getLast? = some m) (hnh : m.isHuman = false) :
    receive_topic s = some { topic := some (some "general health".toList) } ∧
    receive_answer s = some { quiz_answer := some (some ([] : PyStr)) } ∧
    receive_continue s = some { continue_learning := some (PyVal.pbool false) } := by
  unfold receive_topic receive_answer receive_continue
  rw [hlast]
  cases m with
  | human c => simp [Message.isHuman] at hnh
  | ai c => exact ⟨rfl, rfl, rfl⟩
  | system c => exact ⟨rfl, rfl, rfl⟩

theorem receive_steps_nonhuman_fallback_witness :
    receive_topic { emptyState with messages := [Message.ai "hello".toList] } =
      some { topic := some (some "general health".toList) } ∧
    receive_answer { emptyState with messages := [Message.ai "hello".toList] } =
      some { quiz_answer := some (some ([] : PyStr)) } ∧
    receive_continue { emptyState with messages := [Message.ai "hello".toList] } =
      some { continue_learning := some (PyVal.pbool false) } :=
  receive_steps_nonhuman_fallback _ (Message.ai "hello".toList) rfl rfl

/-- C1 counterexample: it is not the case that every grade produced by
`grade_answer` carries a score in `[0, 10]` — on the successful-parse
path the stored score is whatever the LLM's JSON carried, here 15. -/
theorem grade_score_range_refuted :
    ¬ (∀ (s : BotState) (r : PyStr) (u : StateUpdate) (g : Json),
        grade_answer s r = some u → u.grade = some (some g) →
        ∀ n : Int, jsonLookup g "score".toList = some (.num n) → 0 ≤ n ∧ n ≤ 10) := by
  intro h
  have h2 := h okQuizState "\x7b\"score\": 15, \"feedback\": \"ok\", \"citations\": []\x7d".toList
    { grade := some (some outOfRangeGrade) } outOfRangeGrade rfl rfl 15 rfl
  exact absurd h2.2 (by norm_num)

/-- C1 amended: the grade produced by `grade_answer` has score 0 on the
missing-precondition path and score 5 on the parse-failure / missing-key
fallback path (both in `[0, 10]`), while on the successful-parse path it
is verbatim the parsed LLM JSON, with no range (or even integrality)
check applied to its score. -/
theorem grade_answer_score_paths (s : BotState) (r : PyStr) (u : StateUpdate) (g : Json)
    (hrun : grade_answer s r = some u) (hg : u.grade = some (some g)) :
    (g = errorGradeJson ∧ jsonLookup g "score".toList = some (.num 0)) ∨
    (g = fallbackGradeJson (stripCodeFence r) ∧
      jsonLookup g "score".toList = some (.num 5)) ∨
    jsonLoads (pyStrip (stripCodeFence r)) = some g := by
  unfold grade_answer at hrun
  by_cases hpre :
      (strOptFalsy s.quiz_question || strOptFalsy s.quiz_answer || strOptFalsy s.summary) = true
  · rw [if_pos hpre] at hrun
    simp only [Option.some.injEq] at hrun
    subst hrun
    simp only [Option.some.injEq] at hg
    exact Or.inl ⟨hg.symm, hg ▸ rfl⟩
  · rw [if_neg hpre] at hrun
    cases hj : jsonLoads (pyStrip (stripCodeFence r)) with
    | none =>
      rw [hj] at hrun
      simp only [Option.some.injEq] at hrun
      subst hrun
      simp only [Option.some.injEq] at hg
      exact Or.inr (Or.inl ⟨hg.symm, hg ▸ rfl⟩)
    | some gd =>
      rw [hj] at hrun
      cases hk : gradeKeysPresent gd with
      | none =>
        simp only [hk] at hrun
        exact Option.noConfusion hrun
      | some b =>
        cases b with
        | true =>
          simp only [hk, Option.some.injEq] at hrun
          subst hrun
          simp only [Option.some.injEq] at hg
          exact Or.inr (Or.inr (hg ▸ rfl))
        | false =>
          simp only [hk, Option.some.injEq] at hrun
          subst hrun
          simp only [Option.some.injEq] at hg
          exact Or.inr (Or.inl ⟨hg.symm, hg ▸ rfl⟩)

theorem grade_answer_score_paths_witness :
    (errorGradeJson = errorGradeJson ∧
      jsonLookup errorGradeJson "score".toList = some (.num 0)) ∨
    (errorGradeJson = fallbackGradeJson (stripCodeFence "x".toList) ∧
      jsonLookup errorGradeJson "score".toList = some (.num 5)) ∨
    jsonLoads (pyStrip (stripCodeFence "x".toList)) = some errorGradeJson :=
  grade_answer_score_paths emptyState "x".toList
    { grade := some (some errorGradeJson) } errorGradeJson rfl rfl

/-- C7 counterexample: on a parse failure the fallback feedback is not
the raw response text — for a fenced response it is the fence-stripped
text, which differs from the raw response. -/
theorem grade_fallback_feedback_refuted :
    ¬ (∀ (s : BotState) (r : PyStr) (u : StateUpdate) (g : Json),
        grade_answer s r = some u → u.grade = some (some g) →
        jsonLoads (pyStrip (stripCodeFence r)) = none →
        jsonLookup g "feedback".toList = some (.str r)) := by
  intro h
  have h2 := h okQuizState fencedGarbageResponse
    { grade := some (some (fallbackGradeJson "\nnot json!\n".toList)) }
    (fallbackGradeJson "\nnot json!\n".toList) rfl rfl rfl
  have h3 : jsonLookup (fallbackGradeJson "\nnot json!\n".toList) "feedback".toList
      = some (.str "\nnot json!\n".toList) := rfl
  have h4 := h3.symm.trans h2
  injection h4 with h5
  injection h5 with h6
  exact absurd h6 (by decide)

/-- C7 amended: `grade_answer` tolerates a fenced code block by
stripping the fence delimiters before parsing, and whenever parsing of
the stripped text fails, or the parsed value's required-key membership
check reports one of score/feedback/citations absent, it returns the
fallback grade with score 5, the fence-stripped response text (the raw
response when no fence is present) as feedback, and no citations. -/
theorem grade_answer_fallback (s : BotState) (r : PyStr)
    (hok : (strOptFalsy s.quiz_question || strOptFalsy s.quiz_answer ||
      strOptFalsy s.summary) = false)
    (hfail : jsonLoads (pyStrip (stripCodeFence r)) = none ∨
      (∃ j, jsonLoads (pyStrip (stripCodeFence r)) = some j ∧ gradeKeysPresent j = some false)) :
    grade_answer s r = some { grade := some (some (fallbackGradeJson (stripCodeFence r))) } := by
  unfold grade_answer
  rw [if_neg (by simp [hok])]
  rcases hfail with hf | ⟨j, hj, hk⟩
  · rw [hf]
  · rw [hj]
    simp only [hk]

theorem grade_answer_fallback_witness :
    grade_answer okQuizState fencedGarbageResponse =
      some { grade := some (some (fallbackGradeJson (stripCodeFence fencedGarbageResponse))) } :=
  grade_answer_fallback okQuizState fencedGarbageResponse rfl (Or.inl rfl)

end HealthBot
